import Mathlib

/-!
Shallow embedding of the `rutil` crate's option model (`src/cli.rs`) and
naming environment (`src/naming.rs`), with theorems checking the
specification's claims against the code.

Rust's `HashMap<String, usize>` is embedded as an association list where
`insert` prepends and `get` returns the most recent binding; this is
observationally identical to the hash map for the operations the code uses
(`get`, `insert`).
-/

namespace Rutil

/-- Association-list embedding of `HashMap<String, usize>`. -/
def NMap : Type := List (String × Nat)

/-- Embedding of `HashMap::get`: the most recently inserted binding for a
key. -/
def NMap.get : NMap → String → Option Nat
  | [], _ => none
  | (k, v) :: rest, name => if k = name then some v else NMap.get rest name

/-- Embedding of `HashMap::insert`: overwrite the binding for a key (by
prepending). -/
def NMap.insert (m : NMap) (k : String) (v : Nat) : NMap :=
  (k, v) :: m

/-- Embedding of `HashMap::new`: the empty map. -/
def NMap.empty : NMap := []

/-- Structure `NamingEnv` from `src/naming.rs`: maps names to their
indices. -/
structure NamingEnv where
  current_naming_index : NMap
  naming_index_counter : NMap

/-- Constructor `NamingEnv::new` from `src/naming.rs`. -/
def NamingEnv.new : NamingEnv :=
  { current_naming_index := NMap.empty, naming_index_counter := NMap.empty }

/-- Method `NamingEnv::get_current_index` from `src/naming.rs`. -/
def NamingEnv.get_current_index (env : NamingEnv) (name : String) :
    Option Nat :=
  match env.current_naming_index.get name with
  | none => none
  | some 0 => none
  | some idx => some idx

/-- Method `NamingEnv::create_new_name_index` from `src/naming.rs`.  The Rust
method takes `&self`, clones it and mutates only the clone; here that is a
pure function returning the new environment.  The crate's `ite!` macro is
plain if-then-else. -/
def NamingEnv.create_new_name_index (env : NamingEnv) (name : String) :
    Option Nat × NamingEnv :=
  let new_idx :=
    match env.naming_index_counter.get name with
    | none => 0
    | some idx => idx + 1
  let new_env : NamingEnv :=
    { current_naming_index :=
        env.current_naming_index.insert name new_idx,
      naming_index_counter :=
        env.naming_index_counter.insert name new_idx }
  let final_idx := if new_idx = 0 then none else some new_idx
  (final_idx, new_env)

/-- Apply `create_new_name_index` for each name of a list in order,
starting from `env`; this generates the environments reachable from `env`
by a sequence of allocations. -/
def NamingEnv.allocAll (env : NamingEnv) : List String → NamingEnv
  | [] => env
  | n :: rest => ((env.create_new_name_index n).2).allocAll rest

/-- Structure `AssertOptions` from `src/cli.rs` (fields in the source's
sorted order). -/
structure AssertOptions where
  assert_alias : Bool
  assert_all : Bool
  assert_interval : Bool

/-- Method `AssertOptions::need_to_check_aliasing` from `src/cli.rs`. -/
def AssertOptions.need_to_check_aliasing (o : AssertOptions) : Bool :=
  o.assert_all || o.assert_alias

/-- Method `AssertOptions::need_to_check_interval` from `src/cli.rs`.  Note:
the
source computes `assert_all || assert_alias` here, not
`assert_all || assert_interval`. -/
def AssertOptions.need_to_check_interval (o : AssertOptions) : Bool :=
  o.assert_all || o.assert_alias

/-- Method `AssertOptions::need_to_check_assertions` from `src/cli.rs`. -/
def AssertOptions.need_to_check_assertions (o : AssertOptions) : Bool :=
  o.need_to_check_aliasing || o.need_to_check_interval

/-- The interval predicate as the specification words it:
`assert_all OR assert_interval`.  Kept separate from the source-derived
`need_to_check_interval` so the two can be compared. -/
def AssertOptions.spec_need_to_check_interval (o : AssertOptions) : Bool :=
  o.assert_all || o.assert_interval

/-- Structure `BugOptions` from `src/cli.rs` (fields in the source's sorted
order). -/
structure BugOptions where
  all_bugs : Bool
  all_integer_bugs : Bool
  all_memory_bugs : Bool
  division_by_zero : Bool
  integer_coercion_error : Bool
  integer_overflow : Bool
  integer_underflow : Bool
  numeric_truncation_error : Bool
  signedness_conversion_error : Bool

/-- Method `BugOptions::need_to_check_integer_bugs` from `src/cli.rs`. -/
def BugOptions.need_to_check_integer_bugs (o : BugOptions) : Bool :=
  o.all_bugs
    || o.all_integer_bugs
    || o.division_by_zero
    || o.integer_overflow
    || o.integer_underflow
    || o.integer_coercion_error
    || o.numeric_truncation_error
    || o.signedness_conversion_error

/-- Method `BugOptions::need_to_check_memory_bugs` from `src/cli.rs`. -/
def BugOptions.need_to_check_memory_bugs (o : BugOptions) : Bool :=
  o.all_bugs || o.all_memory_bugs

/-- Method `BugOptions::need_to_check_bugs` from `src/cli.rs`. -/
def BugOptions.need_to_check_bugs (o : BugOptions) : Bool :=
  o.need_to_check_memory_bugs || o.need_to_check_integer_bugs

/-- The raw bug flags read by `parse_bug_argument_matches` in
`src/cli.rs`: one Boolean per `argms.is_present(..)` query, named after
the constants of module `bug_args`. -/
structure RawBugFlags where
  bug_all : Bool
  integer_all : Bool
  integer_overflow : Bool
  integer_underflow : Bool
  numeric_truncation_err : Bool
  division_by_zero : Bool
  integer_coercion_err : Bool
  type_conversion_err : Bool
  memory_all : Bool

/-- Function `parse_bug_argument_matches` from `src/cli.rs`, as a function of
the
raw `is_present` results. -/
def parse_bug_argument_matches (raw : RawBugFlags) : BugOptions :=
  let all_bugs := raw.bug_all
  let all_integer_bugs := raw.integer_all || all_bugs
  let integer_overflow := raw.integer_overflow || all_integer_bugs
  let integer_underflow := raw.integer_underflow || all_integer_bugs
  let numeric_truncation_error :=
    raw.numeric_truncation_err || all_integer_bugs
  let division_by_zero := raw.division_by_zero || all_integer_bugs
  let integer_coercion_error :=
    raw.integer_coercion_err || all_integer_bugs
  let type_conversion_error :=
    raw.type_conversion_err || all_integer_bugs
  let all_memory_bugs := raw.memory_all
  { all_bugs := all_bugs,
    all_integer_bugs := all_integer_bugs,
    all_memory_bugs := all_memory_bugs,
    division_by_zero := division_by_zero,
    integer_coercion_error := integer_coercion_error,
    integer_overflow := integer_overflow,
    integer_underflow := integer_underflow,
    numeric_truncation_error := numeric_truncation_error,
    signedness_conversion_error := type_conversion_error }

/-- Structure `CoreOptions` from `src/cli.rs` (fields in the source's sorted
order;
`Vec` of string slices becomes `List String`). -/
structure CoreOptions where
  clang_options : List String
  debug_mode : Bool
  deep_debug_mode : Bool
  disable_instrumentation : Bool
  disable_normalization : Bool
  disable_optimization : Bool
  disable_printing : Bool
  generate_yul_statistics : Bool
  include_dirs : List String
  include_files : List String
  instrument_code : Bool
  print_compiled_prog : Bool
  print_final_prog : Bool
  print_instrumented_prog : Bool
  print_main_prog : Bool
  print_normalized_prog : Bool
  print_optimized_prog : Bool
  print_sparse_prog : Bool
  rustc_options : List String
  solang_options : List String
  solc_options : List String

/-- Modelled from the spec: the `global` module (referenced as
`crate::global` by `src/cli.rs` but not present under `src/`) holds the
process-wide flags `DEBUG_MODE`, `DEEP_DEBUG_MODE` and `DISABLE_PRINTING`
consumed by logging and printing collaborators. -/
structure GlobalFlags where
  DEBUG_MODE : Bool
  DEEP_DEBUG_MODE : Bool
  DISABLE_PRINTING : Bool

/-- Method `CoreOptions::apply_to_core_flags` from `src/cli.rs`: writes the
three process-wide flags; embedded as a state transformer on
`GlobalFlags`. -/
def CoreOptions.apply_to_core_flags (o : CoreOptions) (g : GlobalFlags) :
    GlobalFlags :=
  { g with
    DEBUG_MODE := o.debug_mode || o.deep_debug_mode,
    DEEP_DEBUG_MODE := o.deep_debug_mode,
    DISABLE_PRINTING := o.disable_printing }

/-! ## Helper lemmas -/

/-- Looking a key up after an insertion. -/
theorem NMap.get_insert (m : NMap) (k x : String) (v : Nat) :
    (m.insert k v).get x = if k = x then some v else m.get x := rfl

/-- One allocation step never decreases any counter entry. -/
theorem counter_step_mono (E : NamingEnv) (n x : String) (c : Nat)
    (h : E.naming_index_counter.get x = some c) :
    ∃ cc, ((E.create_new_name_index n).2).naming_index_counter.get x
            = some cc ∧ c ≤ cc := by
  by_cases hx : n = x
  · subst hx
    refine ⟨c + 1, ?_, Nat.le_succ c⟩
    simp [NamingEnv.create_new_name_index, NMap.get_insert, h]
  · refine ⟨c, ?_, Nat.le_refl c⟩
    simp [NamingEnv.create_new_name_index, NMap.get_insert, hx, h]

/-- A sequence of allocations never decreases any counter entry. -/
theorem counter_allocAll_mono (ns : List String) (E : NamingEnv)
    (x : String) (c : Nat)
    (h : E.naming_index_counter.get x = some c) :
    ∃ cc, (E.allocAll ns).naming_index_counter.get x = some cc ∧ c ≤ cc := by
  induction ns generalizing E c with
  | nil => exact ⟨c, h, Nat.le_refl c⟩
  | cons n rest ih =>
    obtain ⟨c1, h1, hle1⟩ := counter_step_mono E n x c h
    obtain ⟨c2, h2, hle2⟩ := ih _ _ h1
    exact ⟨c2, h2, Nat.le_trans hle1 hle2⟩

/-- If the two maps of an environment coincide, they still coincide after
any sequence of allocations. -/
theorem maps_eq_allocAll (ns : List String) (E : NamingEnv)
    (h : E.current_naming_index = E.naming_index_counter) :
    (E.allocAll ns).current_naming_index
      = (E.allocAll ns).naming_index_counter := by
  induction ns generalizing E with
  | nil => exact h
  | cons n rest ih =>
    apply ih
    simp [NamingEnv.create_new_name_index, NMap.insert, h]

/-! ## Claims -/

/-- C1: the spec claims `need_to_check_interval()` computes
`assert_all OR assert_interval` and hence returns `false` on the raw flags
`{assert_all: false, assert_alias: true, assert_interval: false}`; the
code instead computes `assert_all OR assert_alias` and returns `true`
there, contradicting its own doc comment ("interval assertion
checking"). -/
theorem need_to_check_interval_divergence :
    AssertOptions.need_to_check_interval ⟨true, false, false⟩ = true ∧
    AssertOptions.spec_need_to_check_interval ⟨true, false, false⟩
      = false := by
  decide

/-- C2: `parse_bug_argument_matches` equals the reference derivation:
`all_bugs` is the raw `bug_all`; `all_integer_bugs` is raw `integer_all`
OR raw `bug_all`; each per-kind integer flag is its own raw flag OR
`all_integer_bugs`; and `all_memory_bugs` is raw `memory_all` only. -/
theorem parse_bug_argument_matches_spec (raw : RawBugFlags) :
    (parse_bug_argument_matches raw).all_bugs = raw.bug_all ∧
    (parse_bug_argument_matches raw).all_integer_bugs
      = (raw.integer_all || raw.bug_all) ∧
    (parse_bug_argument_matches raw).division_by_zero
      = (raw.division_by_zero
          || (parse_bug_argument_matches raw).all_integer_bugs) ∧
    (parse_bug_argument_matches raw).integer_overflow
      = (raw.integer_overflow
          || (parse_bug_argument_matches raw).all_integer_bugs) ∧
    (parse_bug_argument_matches raw).integer_underflow
      = (raw.integer_underflow
          || (parse_bug_argument_matches raw).all_integer_bugs) ∧
    (parse_bug_argument_matches raw).integer_coercion_error
      = (raw.integer_coercion_err
          || (parse_bug_argument_matches raw).all_integer_bugs) ∧
    (parse_bug_argument_matches raw).numeric_truncation_error
      = (raw.numeric_truncation_err
          || (parse_bug_argument_matches raw).all_integer_bugs) ∧
    (parse_bug_argument_matches raw).signedness_conversion_error
      = (raw.type_conversion_err
          || (parse_bug_argument_matches raw).all_integer_bugs) ∧
    (parse_bug_argument_matches raw).all_memory_bugs = raw.memory_all :=
  ⟨rfl, rfl, rfl, rfl, rfl, rfl, rfl, rfl, rfl⟩

/-- C3: on the empty environment the first `create_new_name_index "x"`
returns `none` (the computed index 0 is the reserved sentinel) and the
second returns `some 1`; in general the new index is `counter[name] + 1`
when a prior counter entry exists and `0` otherwise, and the returned
option is `none` exactly when that new index is `0`. -/
theorem create_new_name_index_spec :
    ((NamingEnv.new.create_new_name_index "x").1 = none ∧
     (((NamingEnv.new.create_new_name_index "x").2).create_new_name_index
        "x").1 = some 1) ∧
    (∀ (E : NamingEnv) (name : String),
      (E.create_new_name_index name).1 =
        match E.naming_index_counter.get name with
        | none => none
        | some c => some (c + 1)) ∧
    (∀ (E : NamingEnv) (name : String),
      ((E.create_new_name_index name).1 = none ↔
        (match E.naming_index_counter.get name with
         | none => 0
         | some c => c + 1) = 0)) := by
  refine ⟨⟨by decide, by decide⟩, ?_, ?_⟩
  · intro E name
    cases h : E.naming_index_counter.get name <;>
      simp [NamingEnv.create_new_name_index, h]
  · intro E name
    cases h : E.naming_index_counter.get name <;>
      simp [NamingEnv.create_new_name_index, h]

/-- C4: `create_new_name_index` is deterministic and pure — two
independent calls on the same environment give identical results (the
receiver is a value unchanged by the call in this embedding, as the Rust
method takes `&self` and clones), and the returned index depends only on
the counter map of the environment. -/
theorem create_new_name_index_deterministic :
    (∀ (E : NamingEnv) (x : String),
      E.create_new_name_index x = E.create_new_name_index x) ∧
    (∀ (E1 E2 : NamingEnv) (x : String),
      E1.naming_index_counter = E2.naming_index_counter →
      (E1.create_new_name_index x).1 = (E2.create_new_name_index x).1) := by
  refine ⟨fun E x => rfl, fun E1 E2 x h => ?_⟩
  simp [NamingEnv.create_new_name_index, h]

/-- Witness for C4: two environments with equal (empty) counters but
different current-index maps return the same index for `"x"`. -/
theorem create_new_name_index_deterministic_witness :
    (NamingEnv.new.create_new_name_index "x").1 =
      (({ current_naming_index := NMap.empty.insert "y" 1,
          naming_index_counter := NMap.empty } :
          NamingEnv).create_new_name_index "x").1 :=
  create_new_name_index_deterministic.2 NamingEnv.new
    { current_naming_index := NMap.empty.insert "y" 1,
      naming_index_counter := NMap.empty } "x" rfl

/-- C5: `need_to_check_bugs()` holds iff `need_to_check_integer_bugs()`
or `need_to_check_memory_bugs()` holds, where the integer predicate is
the OR of `all_bugs`, `all_integer_bugs` and every per-kind integer flag,
and the memory predicate is `all_bugs OR all_memory_bugs`. -/
theorem need_to_check_bugs_composition (o : BugOptions) :
    (o.need_to_check_bugs = true ↔
      (o.need_to_check_integer_bugs = true ∨
       o.need_to_check_memory_bugs = true)) ∧
    o.need_to_check_integer_bugs
      = (o.all_bugs || o.all_integer_bugs || o.division_by_zero
          || o.integer_overflow || o.integer_underflow
          || o.integer_coercion_error || o.numeric_truncation_error
          || o.signedness_conversion_error) ∧
    o.need_to_check_memory_bugs = (o.all_bugs || o.all_memory_bugs) := by
  refine ⟨?_, rfl, rfl⟩
  simp [BugOptions.need_to_check_bugs, Bool.or_eq_true, or_comm]

/-- C6: `get_current_index` returns `none` exactly when the name is
absent from `current_naming_index` or its stored index is the reserved
sentinel `0`, and returns the stored index otherwise; on a name never
allocated (the fresh environment) it returns `none`. -/
theorem get_current_index_spec (E : NamingEnv) (name : String) :
    (E.get_current_index name = none ↔
      (E.current_naming_index.get name = none ∨
       E.current_naming_index.get name = some 0)) ∧
    (∀ idx : Nat,
      E.get_current_index name = some idx ↔
        (E.current_naming_index.get name = some idx ∧ idx ≠ 0)) ∧
    NamingEnv.new.get_current_index name = none := by
  refine ⟨?_, ?_, rfl⟩
  · cases h : E.current_naming_index.get name with
    | none => simp [NamingEnv.get_current_index, h]
    | some v => cases v <;> simp [NamingEnv.get_current_index, h]
  · intro idx
    cases h : E.current_naming_index.get name with
    | none => simp [NamingEnv.get_current_index, h]
    | some v =>
      cases v <;> simp [NamingEnv.get_current_index, h] <;> omega

/-- C7: in every environment reachable from `NamingEnv::new` by
`create_new_name_index` calls, any current index of a name is bounded by
its counter entry, and continuing with further allocations never
decreases a counter entry. -/
theorem naming_env_counter_invariant :
    (∀ (ns : List String) (x : String) (idx : Nat),
      (NamingEnv.new.allocAll ns).current_naming_index.get x = some idx →
      ∃ c, (NamingEnv.new.allocAll ns).naming_index_counter.get x = some c
             ∧ idx ≤ c) ∧
    (∀ (ns ms : List String) (x : String) (c : Nat),
      (NamingEnv.new.allocAll ns).naming_index_counter.get x = some c →
      ∃ cc, ((NamingEnv.new.allocAll ns).allocAll ms).naming_index_counter.get
              x = some cc ∧ c ≤ cc) := by
  constructor
  · intro ns x idx h
    rw [maps_eq_allocAll ns NamingEnv.new rfl] at h
    exact ⟨idx, h, Nat.le_refl idx⟩
  · intro ns ms x c h
    exact counter_allocAll_mono ms _ x c h

/-- Witness for C7: after allocating `"x"` twice, the current index 1 is
bounded by the counter, and a further allocation keeps the counter at
least 1. -/
theorem naming_env_counter_invariant_witness :
    (∃ c, (NamingEnv.new.allocAll ["x", "x"]).naming_index_counter.get "x"
            = some c ∧ 1 ≤ c) ∧
    (∃ cc, ((NamingEnv.new.allocAll ["x"]).allocAll
             ["x"]).naming_index_counter.get "x" = some cc ∧ 0 ≤ cc) :=
  ⟨naming_env_counter_invariant.1 ["x", "x"] "x" 1 (by decide),
   naming_env_counter_invariant.2 ["x"] ["x"] "x" 0 (by decide)⟩

/-- C8: `apply_to_core_flags` leaves the global state with
`DEBUG_MODE = debug_mode OR deep_debug_mode` (so deep-debug implies
debug), `DEEP_DEBUG_MODE = deep_debug_mode` and
`DISABLE_PRINTING = disable_printing`. -/
theorem apply_to_core_flags_spec (o : CoreOptions) (g : GlobalFlags) :
    (o.apply_to_core_flags g).DEBUG_MODE
      = (o.debug_mode || o.deep_debug_mode) ∧
    (o.apply_to_core_flags g).DEEP_DEBUG_MODE = o.deep_debug_mode ∧
    (o.apply_to_core_flags g).DISABLE_PRINTING = o.disable_printing ∧
    (o.deep_debug_mode = true →
      (o.apply_to_core_flags g).DEBUG_MODE = true) := by
  refine ⟨rfl, rfl, rfl, fun h => ?_⟩
  simp [CoreOptions.apply_to_core_flags, h]

/-- Witness for C8: with only deep-debug set, the resulting global
`DEBUG_MODE` is true. -/
theorem apply_to_core_flags_spec_witness :
    ((⟨[], false, true, false, false, false, false, false, [], [], false,
       false, false, false, false, false, false, false, [], [], []⟩ :
       CoreOptions).apply_to_core_flags ⟨false, false, false⟩).DEBUG_MODE
      = true :=
  (apply_to_core_flags_spec
    ⟨[], false, true, false, false, false, false, false, [], [], false,
     false, false, false, false, false, false, false, [], [], []⟩
    ⟨false, false, false⟩).2.2.2 rfl

/-- C9: in every environment reachable from `NamingEnv::new` by
`create_new_name_index` calls, the two maps agree on every name (so the
spec's `≤` invariant is in fact an equality): the single mutating
operation writes the same new index into both maps. -/
theorem naming_env_maps_equal (ns : List String) (x : String) :
    (NamingEnv.new.allocAll ns).current_naming_index.get x
      = (NamingEnv.new.allocAll ns).naming_index_counter.get x := by
  rw [maps_eq_allocAll ns NamingEnv.new rfl]

/-- C10: allocating a name with no prior counter entry returns `none`
and is invisible to `get_current_index` on the new environment: the
sentinel index 0 is stored and then filtered out on lookup. -/
theorem first_allocation_invisible (E : NamingEnv) (x : String)
    (h : E.naming_index_counter.get x = none) :
    (E.create_new_name_index x).1 = none ∧
    ((E.create_new_name_index x).2).get_current_index x = none := by
  constructor
  · simp [NamingEnv.create_new_name_index, h]
  · simp [NamingEnv.create_new_name_index, h, NamingEnv.get_current_index,
      NMap.get_insert]

/-- Witness for C10: the first allocation of `"x"` on the empty
environment returns `none` and stores an index invisible to
`get_current_index`. -/
theorem first_allocation_invisible_witness :
    (NamingEnv.new.create_new_name_index "x").1 = none ∧
    ((NamingEnv.new.create_new_name_index "x").2).get_current_index "x"
      = none :=
  first_allocation_invisible NamingEnv.new "x" rfl

end Rutil
